import Mathlib

/-!
Verification development for the agent-registry discovery and ranking engine
(canonical source file: query-full-2.py).

The Python code is shallowly embedded: agent documents become a structure of
optional fields (absence of a dict key is `none`), the Cosmos store becomes a
list of documents in storage order whose filtered `query_items` interface is
`List.filter` followed by `List.take top_k`, Python strings become Lean
`String` with lowercasing by `Char.toLower` and stripping of the ASCII
whitespace characters, and Python's stable `list.sort(key=..., reverse=True)`
becomes `List.mergeSort` with the reversed comparison (any two stable sorts by
the same key agree).  Handlers' transport, timing and hydration aspects are
omitted; the staged retriever additionally reports how many store queries the
control flow issued, modelling call-count instrumentation on the store.
-/

namespace AgentRegistry

/-! ### Python string primitives -/

/-- ASCII whitespace as Python's `str.strip` removes it (space, tab, LF, CR). -/
def isSpaceChar (c : Char) : Bool := c.toNat = 32 || c.toNat = 9 || c.toNat = 10 || c.toNat = 13

/-- Python `str.lower` (basic-latin case folding, as `Char.toLower`). -/
def lowerStr (s : String) : String := String.mk (s.data.map Char.toLower)

/-- Python `str.strip()`: drop whitespace from both ends. -/
def stripStr (s : String) : String :=
  String.mk (List.rdropWhile isSpaceChar (s.data.dropWhile isSpaceChar))

/-- Source `_safe_str`: `str(v) if v is not None else ""` on an optional string. -/
def safe_str (v : Option String) : String := v.getD ""

/-- Source `_safe_lower`: `_safe_str(v).strip().lower()`. -/
def safe_lower (v : Option String) : String := lowerStr (stripStr (safe_str v))

/-- Python truthiness of an optional string: `None` and `""` are falsy. -/
def pyTruthy (v : Option String) : Bool :=
  match v with
  | some s => s ≠ ""
  | none => false

/-- Python `x or y` on optional strings: `x` when truthy, else `y`. -/
def pyOrStr (x y : Option String) : Option String :=
  match x with
  | some s => if s = "" then y else some s
  | none => y

/-- How an f-string renders an optional value (`None` prints as "None"). -/
def pyFmt (v : Option String) : String :=
  match v with
  | some s => s
  | none => "None"

/-- Python `s.startswith(p)` / Cosmos `STARTSWITH(s, p)`. -/
def startsWithB (s p : String) : Bool := p.data.isPrefixOf s.data

/-- Python `p in s` / Cosmos `CONTAINS(s, p)`: substring test. -/
def containsB (s p : String) : Bool := decide (p.data <:+: s.data)

/-- Python `s.isdigit()` (ASCII digits). -/
def pyIsDigit (s : String) : Bool := s ≠ "" && s.data.all Char.isDigit

/-- Python `int(s)` on a digit string. -/
def strToNat (s : String) : Nat := s.data.foldl (fun acc c => acc * 10 + (c.toNat - 48)) 0

/-! ### Data model

An agent document: each Python dict key that may be absent is an `Option`
field.  `roles` defaults to `[]` (`agent.get("roles", [])`) so it is kept as a
plain list; `roles_lc` may be absent, hence `Option (List String)`. -/

structure Agent where
  id : Option String := none
  agent_id : Option String := none
  name : Option String := none
  appid : Option String := none
  test : Option String := none
  roles : List String := []
  enabled : Option Bool := none
  createdAt : Option String := none
  updatedAt : Option String := none
  agent_id_lc : Option String := none
  name_lc : Option String := none
  appid_lc : Option String := none
  test_lc : Option String := none
  roles_lc : Option (List String) := none
deriving DecidableEq, Repr

/-- The `roles` value a client may supply: absent, a comma-separated string,
or a list of strings (source `_normalize_roles` accepts all three). -/
inductive RolesValue where
  | noneV : RolesValue
  | strV (s : String) : RolesValue
  | listV (l : List String) : RolesValue
deriving DecidableEq, Repr

/-- A registration payload (the JSON body of POST /registry/register). -/
structure Payload where
  agent_id : Option String := none
  appid : Option String := none
  name : Option String := none
  roles : RolesValue := RolesValue.noneV
  enabled : Option Bool := none
  createdAt : Option String := none
  test : Option String := none
deriving DecidableEq, Repr

/-- A partial-update payload (the JSON body of PATCH /registry/agents/id):
`some` means the key is present in the patch. -/
structure PatchPayload where
  name : Option String := none
  enabled : Option Bool := none
  appid : Option String := none
  test : Option String := none
  roles : Option RolesValue := none
deriving DecidableEq, Repr

/-- Result of `_score_agent_match`. -/
structure MatchScore where
  score : Nat
  reasons : List String
deriving DecidableEq, Repr

/-- Retrieval diagnostics `{strategy, stage_used}`. -/
structure Diagnostics where
  strategy : String
  stage_used : String
deriving DecidableEq, Repr

/-- What `_query_candidates_staged` produces: the candidates, the diagnostics,
and how many store queries the control flow issued (the call count a store
mock would observe). -/
structure StagedResult where
  candidates : List Agent
  diagnostics : Diagnostics
  storeQueries : Nat
deriving DecidableEq, Repr

/-- One entry of `_rank_candidates`' output. -/
structure Ranked where
  agent : Agent
  score : Nat
  reasons : List String
deriving DecidableEq, Repr

/-! ### Writes: normalizer and upsert (source lines 79-145) -/

/-- Source `_normalize_roles`. -/
def normalize_roles (v : RolesValue) : List String :=
  match v with
  | RolesValue.noneV => []
  | RolesValue.listV l => (l.map stripStr).filter (fun s => s ≠ "")
  | RolesValue.strV s => ((s.splitOn ",").map stripStr).filter (fun s => s ≠ "")

/-- Source `_apply_search_fields`: set the five denormalized lowercase fields. -/
def apply_search_fields (doc : Agent) : Agent :=
  { doc with
    name_lc := some (safe_lower doc.name)
    agent_id_lc := some (safe_lower doc.agent_id)
    appid_lc := some (safe_lower doc.appid)
    test_lc := some (safe_lower doc.test)
    roles_lc := some ((doc.roles.map (fun r => safe_lower (some r))).filter (fun r => r ≠ "")) }

/-- Source `_agent_upsert`: build the document stored for a registration
payload at write time `now`; `none` is the `ValueError` on missing
`agent_id`/`appid` or `name`.  The document is built from the payload alone
(`doc = dict(payload)`), with `setdefault` for `appid`, `enabled` and
`createdAt`, and search fields applied last. -/
def agent_upsert (payload : Payload) (now : String) : Option Agent :=
  let aidOpt := pyOrStr payload.agent_id payload.appid
  if pyTruthy aidOpt && pyTruthy payload.name then
    let aid := safe_str aidOpt
    some (apply_search_fields
      { id := some aid
        agent_id := some aid
        appid := some (payload.appid.getD aid)
        name := payload.name
        test := payload.test
        roles := normalize_roles payload.roles
        enabled := some (payload.enabled.getD true)
        createdAt := some (payload.createdAt.getD now)
        updatedAt := some now })
  else
    none

/-- Cosmos `container.upsert_item`: replace the document with the same `id`,
or append when no such document exists. -/
def upsert_item (store : List Agent) (doc : Agent) : List Agent :=
  if store.any (fun d => d.id = doc.id) then
    store.map (fun d => if d.id = doc.id then doc else d)
  else
    store ++ [doc]

/-- Registration handler core: upsert the payload's document into the store. -/
def registry_register (store : List Agent) (payload : Payload) (now : String) :
    Option (List Agent × Agent) :=
  match agent_upsert payload now with
  | some doc => some (upsert_item store doc, doc)
  | none => none

/-- Cosmos point read `container.read_item` keyed by `id`. -/
def agent_get (store : List Agent) (aid : String) : Option Agent :=
  store.find? (fun d => d.id = some aid)

/-- PATCH handler core (source lines 614-637): merge the allowed fields into
the existing document, re-pin `id`/`agent_id`, bump `updatedAt`, and refresh
the search fields. -/
def patch_agent (existing : Agent) (patch : PatchPayload) (aid : String) (now : String) : Agent :=
  let merged : Agent :=
    { existing with
      name := match patch.name with | some v => some v | none => existing.name
      enabled := match patch.enabled with | some v => some v | none => existing.enabled
      appid := match patch.appid with | some v => some v | none => existing.appid
      test := match patch.test with | some v => some v | none => existing.test
      roles := match patch.roles with | some v => normalize_roles v | none => existing.roles }
  apply_search_fields
    { merged with
      id := some aid
      agent_id := some aid
      updatedAt := some now }

/-! ### Staged candidate retrieval (source lines 178-267) -/

/-- Stage 1 WHERE clause: one of the four scalar shadow fields equals the
query, or the query is an element of `roles_lc` (a missing field never
matches, as in Cosmos SQL). -/
def matchesExactStage (qn : String) (c : Agent) : Bool :=
  c.agent_id_lc = some qn || c.name_lc = some qn || c.appid_lc = some qn
    || c.test_lc = some qn || (c.roles_lc.getD []).contains qn

/-- Cosmos `STARTSWITH` on a possibly missing field. -/
def optStartsWith (v : Option String) (qn : String) : Bool :=
  match v with
  | some s => startsWithB s qn
  | none => false

/-- Cosmos `CONTAINS` on a possibly missing field. -/
def optContains (v : Option String) (qn : String) : Bool :=
  match v with
  | some s => containsB s qn
  | none => false

/-- Stage 2 WHERE clause: a scalar shadow field or a `roles_lc` element starts
with the query. -/
def matchesPrefixStage (qn : String) (c : Agent) : Bool :=
  optStartsWith c.agent_id_lc qn || optStartsWith c.name_lc qn || optStartsWith c.appid_lc qn
    || optStartsWith c.test_lc qn || (c.roles_lc.getD []).any (fun r => startsWithB r qn)

/-- Stage 3 WHERE clause: a scalar shadow field or a `roles_lc` element
contains the query as a substring. -/
def matchesContainsStage (qn : String) (c : Agent) : Bool :=
  optContains c.agent_id_lc qn || optContains c.name_lc qn || optContains c.appid_lc qn
    || optContains c.test_lc qn || (c.roles_lc.getD []).any (fun r => containsB r qn)

/-- One filtered store query `SELECT TOP top_k ... WHERE pred` over the store
in storage order. -/
def query_stage (store : List Agent) (pred : Agent → Bool) (top_k : Nat) : List Agent :=
  (store.filter pred).take top_k

/-- Source `_query_candidates_staged`: the unfiltered list path on a blank
query, otherwise exact, then prefix, then contains, stopping at the first
stage with a result.  `storeQueries` counts the issued store queries. -/
def query_candidates_staged (store : List Agent) (q : Option String) (top_k : Nat) :
    StagedResult :=
  if safe_str q = "" || stripStr (safe_str q) = "" then
    { candidates := store.take top_k
      diagnostics := { strategy := "list", stage_used := "all" }
      storeQueries := 1 }
  else
    let qn := safe_lower q
    let stage1 := query_stage store (matchesExactStage qn) top_k
    if stage1 ≠ [] then
      { candidates := stage1
        diagnostics := { strategy := "staged", stage_used := "exact" }
        storeQueries := 1 }
    else
      let stage2 := query_stage store (matchesPrefixStage qn) top_k
      if stage2 ≠ [] then
        { candidates := stage2
          diagnostics := { strategy := "staged", stage_used := "prefix" }
          storeQueries := 2 }
      else
        let stage3 := query_stage store (matchesContainsStage qn) top_k
        { candidates := stage3
          diagnostics := { strategy := "staged", stage_used := "contains" }
          storeQueries := 3 }

/-! ### Match scorer (source lines 270-358)

The sequential `score += ...; reasons.append(...)` blocks become one
(weight, reasons) pair per signal, combined in the source's order:
name, agent_id, appid, roles, test, enabled. -/

/-- The folded name the scorer matches against:
`_safe_lower(agent.get("name_lc") or agent.get("name"))`. -/
def foldedName (a : Agent) : String := safe_lower (pyOrStr a.name_lc a.name)

/-- The folded agent_id the scorer matches against. -/
def foldedAgentId (a : Agent) : String := safe_lower (pyOrStr a.agent_id_lc a.agent_id)

/-- The folded appid the scorer matches against. -/
def foldedAppid (a : Agent) : String := safe_lower (pyOrStr a.appid_lc a.appid)

/-- The folded test field the scorer matches against. -/
def foldedTest (a : Agent) : String := safe_lower (pyOrStr a.test_lc a.test)

/-- The folded role list: from `roles_lc` when it is a list, else from the raw
`roles`, both re-folded and cleared of empties. -/
def foldedRoles (a : Agent) : List String :=
  match a.roles_lc with
  | some rl => (rl.map (fun r => safe_lower (some r))).filter (fun r => r ≠ "")
  | none => (a.roles.map (fun r => safe_lower (some r))).filter (fun r => r ≠ "")

/-- Name block of `_score_agent_match` (120 / 85 / 70). -/
def nameSignal (a : Agent) (name qn : String) : Nat × List String :=
  if name = qn then (120, ["exact name match ('" ++ pyFmt a.name ++ "')"])
  else if startsWithB name qn then (85, ["name prefix match"])
  else if containsB name qn then (70, ["name contains search term"])
  else (0, [])

/-- agent_id block of `_score_agent_match` (115 / 80 / 65). -/
def agentIdSignal (a : Agent) (agent_id qn : String) : Nat × List String :=
  if agent_id = qn then (115, ["exact agent_id match ('" ++ pyFmt a.agent_id ++ "')"])
  else if startsWithB agent_id qn then (80, ["agent_id prefix match"])
  else if containsB agent_id qn then (65, ["agent_id contains search term"])
  else (0, [])

/-- appid block of `_score_agent_match` (95 / 70 / 55). -/
def appidSignal (a : Agent) (appid qn : String) : Nat × List String :=
  if appid = qn then (95, ["exact appid match ('" ++ pyFmt a.appid ++ "')"])
  else if startsWithB appid qn then (70, ["appid prefix match"])
  else if containsB appid qn then (55, ["appid contains search term"])
  else (0, [])

/-- Role block of `_score_agent_match`: flat 80 on an exact role, else
`min(count * 25, 60)` over prefix matches, else `min(count * 20, 50)` over
substring matches. -/
def roleSignal (roles : List String) (qn : String) : Nat × List String :=
  let exactRoles := roles.filter (fun r => r = qn)
  let prefixRoles := roles.filter (fun r => startsWithB r qn)
  let containsRoles := roles.filter (fun r => containsB r qn)
  if exactRoles ≠ [] then
    (80, ["exact role match: " ++ exactRoles.headD ""])
  else if prefixRoles ≠ [] then
    (min (prefixRoles.length * 25) 60, ["role prefix match: " ++ prefixRoles.headD ""])
  else if containsRoles ≠ [] then
    (min (containsRoles.length * 20) 50,
      ["matched role(s): " ++ String.intercalate ", " (containsRoles.take 3)])
  else (0, [])

/-- Test block of `_score_agent_match` (85 / 55 / 40), only when the folded
test field is non-empty. -/
def testSignal (a : Agent) (tf qn : String) : Nat × List String :=
  if tf ≠ "" then
    if tf = qn then (85, ["exact test match ('" ++ pyFmt a.test ++ "')"])
    else if startsWithB tf qn then (55, ["test prefix match"])
    else if containsB tf qn then (40, ["test contains search term"])
    else (0, [])
  else (0, [])

/-- Enabled block of `_score_agent_match`: +10 and a reason when enabled,
0 but still a reason when disabled (`agent.get("enabled", True)`). -/
def enabledSignal (a : Agent) : Nat × List String :=
  if a.enabled.getD true then (10, ["agent is enabled"])
  else (0, ["agent is disabled"])

/-- Source `_score_agent_match`. -/
def score_agent_match (a : Agent) (q : String) : MatchScore :=
  let qn := safe_lower (some q)
  if qn = "" then { score := 0, reasons := [] }
  else
    let n := nameSignal a (foldedName a) qn
    let g := agentIdSignal a (foldedAgentId a) qn
    let p := appidSignal a (foldedAppid a) qn
    let r := roleSignal (foldedRoles a) qn
    let t := testSignal a (foldedTest a) qn
    let e := enabledSignal a
    { score := n.1 + g.1 + p.1 + r.1 + t.1 + e.1
      reasons := n.2 ++ g.2 ++ p.2 ++ r.2 ++ t.2 ++ e.2 }

/-! ### Ranker (source lines 361-373) -/

/-- Source `_rank_candidates`, generalized over the scoring function it
invokes per candidate (the source fixes it to `_score_agent_match`): score
every candidate, then stable-sort by descending score (Python's
`sort(key=..., reverse=True)`). -/
def rank_candidates (score_fn : Agent → String → MatchScore) (candidates : List Agent)
    (q : String) : List Ranked :=
  let scored := candidates.map (fun c =>
    { agent := c, score := (score_fn c q).score, reasons := (score_fn c q).reasons : Ranked })
  scored.mergeSort (fun x y => decide (y.score ≤ x.score))

/-! ### Discovery handler core (source lines 404-529) -/

/-- The effective `top_k` of `registry_discover`: a supplied all-digits `top`
parameter is clamped by `max(1, min(int(top_param), 100))`; anything else
leaves the configured default `DISCOVERY_TOP_K`. -/
def resolve_top_k (topParam : Option String) (defaultTopK : Nat) : Nat :=
  match topParam with
  | some s => if s ≠ "" && pyIsDigit s then max 1 (min (strToNat s) 100) else defaultTopK
  | none => defaultTopK

/-- The response fields of GET /registry/discover the engine computes
(transport, timing, debug and hydration aspects omitted). -/
structure DiscoverResponse where
  count : Nat
  q : Option String
  message : Option String
  diagnostics : Diagnostics
  agents : List Agent
  best_match : Option Agent
  best_match_score : Nat
  best_match_reasons : List String
  justification : Option String
deriving DecidableEq, Repr

/-- Source `registry_discover` core, generalized over the scoring function the
ranking step invokes: strip the query, resolve `top_k`, retrieve staged
candidates, and either return the plain list (blank query) or rank and
describe the best match. -/
def registry_discover (score_fn : Agent → String → MatchScore) (store : List Agent)
    (qParam : Option String) (topParam : Option String) (defaultTopK : Nat) :
    DiscoverResponse :=
  let q := stripStr (safe_str qParam)
  let top_k := resolve_top_k topParam defaultTopK
  let retrieved := query_candidates_staged store (if q = "" then none else some q) top_k
  let candidates := retrieved.candidates
  if q = "" then
    { count := candidates.length
      q := none
      message := some "No query provided. Returned registry list."
      diagnostics := retrieved.diagnostics
      agents := candidates
      best_match := none
      best_match_score := 0
      best_match_reasons := []
      justification := none }
  else
    let ranked := rank_candidates score_fn candidates q
    match ranked with
    | [] =>
      { count := 0
        q := some q
        message := none
        diagnostics := retrieved.diagnostics
        agents := []
        best_match := none
        best_match_score := 0
        best_match_reasons := []
        justification := some ("No agents matched '" ++ q ++ "'.") }
    | top :: _ =>
      let nameOrId := pyFmt (pyOrStr top.agent.name top.agent.agent_id)
      { count := candidates.length
        q := some q
        message := none
        diagnostics := retrieved.diagnostics
        agents := []
        best_match := some top.agent
        best_match_score := top.score
        best_match_reasons := top.reasons
        justification := some
          ("Based on your search '" ++ q ++ "', the best agent fit is '" ++ nameOrId
            ++ "' (agent_id=" ++ pyFmt top.agent.agent_id ++ ") with score "
            ++ toString top.score ++ ". Reason(s): "
            ++ String.intercalate "; " (top.reasons.take 4) ++ ".") }

/-! ### Claim-side (spec-side) definitions, for claims comparing against the
weight table and reason ordering of spec 4.3 -/

/-- Spec 4.3, one scalar field: only the single highest-matching tier applies
(exact beats starts-with beats contains; no match scores 0). -/
def claimFieldTier (field qn : String) (we wp wc : Nat) : Nat :=
  if field = qn then we
  else if startsWithB field qn then wp
  else if containsB field qn then wc
  else 0

/-- Spec 4.3, the single role contribution: a flat 80 when any role equals the
query, otherwise `min(count x 25, 60)` over the roles starting with it,
otherwise `min(count x 20, 50)` over the roles containing it. -/
def claimRoleContribution (roles : List String) (qn : String) : Nat :=
  if roles.any (fun r => r = qn) then 80
  else if roles.any (fun r => startsWithB r qn) then
    min ((roles.filter (fun r => startsWithB r qn)).length * 25) 60
  else if roles.any (fun r => containsB r qn) then
    min ((roles.filter (fun r => containsB r qn)).length * 20) 50
  else 0

/-- Spec 4.3, the reasons one scalar field appends: one reason string for the
single tier that fires, none when the field does not match. -/
def claimFieldReasons (field qn : String) (re rp rc : String) : List String :=
  if field = qn then [re]
  else if startsWithB field qn then [rp]
  else if containsB field qn then [rc]
  else []

/-- Spec 4.3, the reasons the role rule appends: one reason string for the
single highest role tier that fires. -/
def claimRoleReasons (roles : List String) (qn : String) : List String :=
  if roles.any (fun r => r = qn) then
    ["exact role match: " ++ (roles.filter (fun r => r = qn)).headD ""]
  else if roles.any (fun r => startsWithB r qn) then
    ["role prefix match: " ++ (roles.filter (fun r => startsWithB r qn)).headD ""]
  else if roles.any (fun r => containsB r qn) then
    ["matched role(s): " ++ String.intercalate ", " ((roles.filter (fun r => containsB r qn)).take 3)]
  else []

/-- Spec 4.3, the reasons of the test field: appended only when the (folded)
test field is non-empty. -/
def claimTestReasons (tf qn : String) (re rp rc : String) : List String :=
  if tf ≠ "" then claimFieldReasons tf qn re rp rc else []

/-- The reasons list claim C8 asserts: evaluation order name, agent_id, appid,
then TEST, then the ROLE rule, then enabled. -/
def claimedReasonsTestBeforeRole (a : Agent) (q : String) : List String :=
  let qn := safe_lower (some q)
  claimFieldReasons (foldedName a) qn ("exact name match ('" ++ pyFmt a.name ++ "')")
      "name prefix match" "name contains search term"
    ++ claimFieldReasons (foldedAgentId a) qn ("exact agent_id match ('" ++ pyFmt a.agent_id ++ "')")
      "agent_id prefix match" "agent_id contains search term"
    ++ claimFieldReasons (foldedAppid a) qn ("exact appid match ('" ++ pyFmt a.appid ++ "')")
      "appid prefix match" "appid contains search term"
    ++ claimTestReasons (foldedTest a) qn ("exact test match ('" ++ pyFmt a.test ++ "')")
      "test prefix match" "test contains search term"
    ++ claimRoleReasons (foldedRoles a) qn
    ++ [if a.enabled.getD true then "agent is enabled" else "agent is disabled"]

/-- A record with its five shadow fields removed (claim C10's second input). -/
def stripShadows (a : Agent) : Agent :=
  { a with
    agent_id_lc := none
    name_lc := none
    appid_lc := none
    test_lc := none
    roles_lc := none }

/-- Spec 3's invariant: every shadow field is the case-folded, trimmed
transform of its source field, empty (never null) when the source is absent,
and `roles_lc` holds the folded non-empty role entries. -/
def shadow_consistent (d : Agent) : Prop :=
  d.name_lc = some (safe_lower d.name)
    ∧ d.agent_id_lc = some (safe_lower d.agent_id)
    ∧ d.appid_lc = some (safe_lower d.appid)
    ∧ d.test_lc = some (safe_lower d.test)
    ∧ d.roles_lc = some ((d.roles.map (fun r => safe_lower (some r))).filter (fun r => r ≠ ""))

/-! ### Concrete records used by witnesses and counterexamples -/

/-- Scenario A's record (spec 8) as stored: `{agent_id:"a1", name:"Billing
Bot", roles:["finance","support"], enabled:true}` with shadow fields derived. -/
def billingAgent : Agent :=
  apply_search_fields
    { agent_id := some "a1"
      name := some "Billing Bot"
      roles := ["finance", "support"]
      enabled := some true }

/-- A record whose test field and one role both equal "ops" (it makes the test
signal and the role signal fire together). -/
def testRoleAgent : Agent :=
  { test := some "ops", roles := ["ops"], enabled := some true }

/-- A disabled record named "Ops". -/
def opsDisabledAgent : Agent :=
  apply_search_fields { agent_id := some "o2", name := some "Ops", enabled := some false }

/-- An enabled record named "Ops". -/
def opsEnabledAgent : Agent :=
  apply_search_fields { agent_id := some "o1", name := some "Ops", enabled := some true }

/-- A minimal registration payload for agent "a1" (no createdAt supplied). -/
def c4payload : Payload := { agent_id := some "a1", name := some "Agent One" }

/-- The document `agent_upsert c4payload "T1"` stores. -/
def c4doc : Agent :=
  { id := some "a1"
    agent_id := some "a1"
    name := some "Agent One"
    appid := some "a1"
    test := none
    roles := []
    enabled := some true
    createdAt := some "T1"
    updatedAt := some "T1"
    agent_id_lc := some "a1"
    name_lc := some "agent one"
    appid_lc := some "a1"
    test_lc := some ""
    roles_lc := some [] }

/-! ### Helper lemmas on the string primitives -/

theorem toNat_toLower_of_upper (c : Char) (h : 65 ≤ c.toNat ∧ c.toNat ≤ 90) :
    c.toLower.toNat = c.toNat + 32 := by
  unfold Char.toLower
  rw [if_pos ⟨h.1, h.2⟩]
  have hv : Nat.isValidChar (c.toNat + 32) := by
    left
    omega
  unfold Char.ofNat
  rw [dif_pos hv]
  rfl

theorem toLower_eq_self_of_not_upper (c : Char) (h : ¬(65 ≤ c.toNat ∧ c.toNat ≤ 90)) :
    c.toLower = c := by
  unfold Char.toLower
  rw [if_neg]
  omega

theorem toLower_toLower (c : Char) : c.toLower.toLower = c.toLower := by
  by_cases h : 65 ≤ c.toNat ∧ c.toNat ≤ 90
  · have h1 := toNat_toLower_of_upper c h
    apply toLower_eq_self_of_not_upper
    omega
  · rw [toLower_eq_self_of_not_upper c h, toLower_eq_self_of_not_upper c h]

theorem isSpaceChar_toLower (c : Char) : isSpaceChar c.toLower = isSpaceChar c := by
  by_cases h : 65 ≤ c.toNat ∧ c.toNat ≤ 90
  · have h1 := toNat_toLower_of_upper c h
    have hA : isSpaceChar c.toLower = false := by
      simp only [isSpaceChar, h1, Bool.or_eq_false_iff, decide_eq_false_iff_not]
      omega
    have hB : isSpaceChar c = false := by
      simp only [isSpaceChar, Bool.or_eq_false_iff, decide_eq_false_iff_not]
      omega
    rw [hA, hB]
  · rw [toLower_eq_self_of_not_upper c h]

theorem dropWhile_of_head_not (p : α → Bool) (m : List α)
    (h : ∀ a, m.head? = some a → p a = false) : List.dropWhile p m = m := by
  cases m with
  | nil => rfl
  | cons a t =>
    have ha := h a rfl
    simp [List.dropWhile_cons, ha]

theorem dropWhile_rdropWhile (p : α → Bool) (l : List α) :
    List.dropWhile p (List.rdropWhile p (List.dropWhile p l))
      = List.rdropWhile p (List.dropWhile p l) := by
  apply dropWhile_of_head_not
  intro a ha
  obtain ⟨t, ht⟩ := List.rdropWhile_prefix p (List.dropWhile p l)
  have hh : (List.dropWhile p l).head? = some a := by
    rw [← ht, List.head?_append, ha]
    rfl
  have hres := List.head?_dropWhile_not p l
  rw [hh] at hres
  exact hres

theorem isSpaceChar_comp_toLower : isSpaceChar ∘ Char.toLower = isSpaceChar :=
  funext isSpaceChar_toLower

theorem stripStr_stripStr (s : String) : stripStr (stripStr s) = stripStr s := by
  unfold stripStr
  rw [dropWhile_rdropWhile, List.rdropWhile_idempotent]

theorem stripStr_lowerStr (s : String) : stripStr (lowerStr s) = lowerStr (stripStr s) := by
  unfold stripStr lowerStr
  show String.mk (List.rdropWhile isSpaceChar (List.dropWhile isSpaceChar (s.data.map Char.toLower)))
    = String.mk ((List.rdropWhile isSpaceChar (s.data.dropWhile isSpaceChar)).map Char.toLower)
  rw [List.dropWhile_map, isSpaceChar_comp_toLower]
  unfold List.rdropWhile
  rw [← List.map_reverse, List.dropWhile_map, isSpaceChar_comp_toLower, ← List.map_reverse]

theorem lowerStr_lowerStr (s : String) : lowerStr (lowerStr s) = lowerStr s := by
  unfold lowerStr
  show String.mk ((s.data.map Char.toLower).map Char.toLower) = String.mk (s.data.map Char.toLower)
  rw [List.map_map]
  congr 1
  apply List.map_congr_left
  intro c _
  exact toLower_toLower c

theorem safe_lower_idem (v : Option String) :
    safe_lower (some (safe_lower v)) = safe_lower v := by
  unfold safe_lower safe_str
  show lowerStr (stripStr (lowerStr (stripStr (v.getD "")))) = lowerStr (stripStr (v.getD ""))
  rw [stripStr_lowerStr, lowerStr_lowerStr, stripStr_stripStr]

/-- The scorer's shadow-or-raw fallback collapses on a consistent shadow:
folding `name_lc or name` equals folding `name` when `name_lc` is the folded
`name`. -/
theorem safe_lower_pyOrStr_shadow (x : Option String) :
    safe_lower (pyOrStr (some (safe_lower x)) x) = safe_lower x := by
  show safe_lower (if safe_lower x = "" then x else some (safe_lower x)) = safe_lower x
  by_cases h : safe_lower x = ""
  · rw [if_pos h]
  · rw [if_neg h]
    exact safe_lower_idem x

/-- Re-folding an already folded-and-filtered role list is the identity. -/
theorem roles_refold (l : List String) :
    ((((l.map (fun r => safe_lower (some r))).filter (fun r => r ≠ "")).map
        (fun r => safe_lower (some r))).filter (fun r => r ≠ ""))
      = (l.map (fun r => safe_lower (some r))).filter (fun r => r ≠ "") := by
  induction l with
  | nil => rfl
  | cons r t ih =>
    by_cases h : safe_lower (some r) = ""
    · simp [List.filter_cons, h]
      simpa using ih
    · simp [List.filter_cons, h, safe_lower_idem]
      simpa using ih

/-! ### Signal decompositions used by the scoring claims -/

theorem nameSignal_fst (a : Agent) (f qn : String) :
    (nameSignal a f qn).1 = claimFieldTier f qn 120 85 70 := by
  unfold nameSignal claimFieldTier
  split
  · rfl
  · split
    · rfl
    · split
      · rfl
      · rfl

theorem agentIdSignal_fst (a : Agent) (f qn : String) :
    (agentIdSignal a f qn).1 = claimFieldTier f qn 115 80 65 := by
  unfold agentIdSignal claimFieldTier
  split
  · rfl
  · split
    · rfl
    · split
      · rfl
      · rfl

theorem appidSignal_fst (a : Agent) (f qn : String) :
    (appidSignal a f qn).1 = claimFieldTier f qn 95 70 55 := by
  unfold appidSignal claimFieldTier
  split
  · rfl
  · split
    · rfl
    · split
      · rfl
      · rfl

theorem testSignal_fst (a : Agent) (tf qn : String) :
    (testSignal a tf qn).1 = if tf ≠ "" then claimFieldTier tf qn 85 55 40 else 0 := by
  unfold testSignal claimFieldTier
  split
  · split
    · rfl
    · split
      · rfl
      · split
        · rfl
        · rfl
  · rfl

theorem filter_ne_nil_iff_any (p : α → Bool) (l : List α) :
    l.filter p ≠ [] ↔ l.any p = true := by
  rw [Ne, List.filter_eq_nil_iff, List.any_eq_true]
  constructor
  · intro h
    by_contra hc
    push_neg at hc
    exact h hc
  · rintro ⟨a, ha, hp⟩ h
    exact h a ha hp

theorem roleSignal_fst (roles : List String) (qn : String) :
    (roleSignal roles qn).1 = claimRoleContribution roles qn := by
  unfold roleSignal claimRoleContribution
  by_cases h1 : roles.filter (fun r => r = qn) ≠ []
  · rw [if_pos h1, if_pos ((filter_ne_nil_iff_any _ _).mp h1)]
  · rw [if_neg h1, if_neg (fun hc => h1 ((filter_ne_nil_iff_any _ _).mpr hc))]
    by_cases h2 : roles.filter (fun r => startsWithB r qn) ≠ []
    · rw [if_pos h2, if_pos ((filter_ne_nil_iff_any _ _).mp h2)]
    · rw [if_neg h2, if_neg (fun hc => h2 ((filter_ne_nil_iff_any _ _).mpr hc))]
      by_cases h3 : roles.filter (fun r => containsB r qn) ≠ []
      · rw [if_pos h3, if_pos ((filter_ne_nil_iff_any _ _).mp h3)]
      · rw [if_neg h3, if_neg (fun hc => h3 ((filter_ne_nil_iff_any _ _).mpr hc))]

theorem nameSignal_snd (a : Agent) (f qn : String) :
    (nameSignal a f qn).2 = claimFieldReasons f qn ("exact name match ('" ++ pyFmt a.name ++ "')")
      "name prefix match" "name contains search term" := by
  unfold nameSignal claimFieldReasons
  split
  · rfl
  · split
    · rfl
    · split
      · rfl
      · rfl

theorem agentIdSignal_snd (a : Agent) (f qn : String) :
    (agentIdSignal a f qn).2 = claimFieldReasons f qn
      ("exact agent_id match ('" ++ pyFmt a.agent_id ++ "')")
      "agent_id prefix match" "agent_id contains search term" := by
  unfold agentIdSignal claimFieldReasons
  split
  · rfl
  · split
    · rfl
    · split
      · rfl
      · rfl

theorem appidSignal_snd (a : Agent) (f qn : String) :
    (appidSignal a f qn).2 = claimFieldReasons f qn
      ("exact appid match ('" ++ pyFmt a.appid ++ "')")
      "appid prefix match" "appid contains search term" := by
  unfold appidSignal claimFieldReasons
  split
  · rfl
  · split
    · rfl
    · split
      · rfl
      · rfl

theorem testSignal_snd (a : Agent) (tf qn : String) :
    (testSignal a tf qn).2 = claimTestReasons tf qn
      ("exact test match ('" ++ pyFmt a.test ++ "')")
      "test prefix match" "test contains search term" := by
  unfold testSignal claimTestReasons claimFieldReasons
  split
  · split
    · rfl
    · split
      · rfl
      · split
        · rfl
        · rfl
  · rfl

theorem roleSignal_snd (roles : List String) (qn : String) :
    (roleSignal roles qn).2 = claimRoleReasons roles qn := by
  unfold roleSignal claimRoleReasons
  by_cases h1 : roles.filter (fun r => r = qn) ≠ []
  · rw [if_pos h1, if_pos ((filter_ne_nil_iff_any _ _).mp h1)]
  · rw [if_neg h1, if_neg (fun hc => h1 ((filter_ne_nil_iff_any _ _).mpr hc))]
    by_cases h2 : roles.filter (fun r => startsWithB r qn) ≠ []
    · rw [if_pos h2, if_pos ((filter_ne_nil_iff_any _ _).mp h2)]
    · rw [if_neg h2, if_neg (fun hc => h2 ((filter_ne_nil_iff_any _ _).mpr hc))]
      by_cases h3 : roles.filter (fun r => containsB r qn) ≠ []
      · rw [if_pos h3, if_pos ((filter_ne_nil_iff_any _ _).mp h3)]
      · rw [if_neg h3, if_neg (fun hc => h3 ((filter_ne_nil_iff_any _ _).mpr hc))]

theorem score_agent_match_eq (a : Agent) (q : String) (h : safe_lower (some q) ≠ "") :
    score_agent_match a q =
      { score := (nameSignal a (foldedName a) (safe_lower (some q))).1
          + (agentIdSignal a (foldedAgentId a) (safe_lower (some q))).1
          + (appidSignal a (foldedAppid a) (safe_lower (some q))).1
          + (roleSignal (foldedRoles a) (safe_lower (some q))).1
          + (testSignal a (foldedTest a) (safe_lower (some q))).1
          + (enabledSignal a).1
        reasons := (nameSignal a (foldedName a) (safe_lower (some q))).2
          ++ (agentIdSignal a (foldedAgentId a) (safe_lower (some q))).2
          ++ (appidSignal a (foldedAppid a) (safe_lower (some q))).2
          ++ (roleSignal (foldedRoles a) (safe_lower (some q))).2
          ++ (testSignal a (foldedTest a) (safe_lower (some q))).2
          ++ (enabledSignal a).2 } := by
  unfold score_agent_match
  rw [if_neg h]

theorem enabledSignal_fst (a : Agent) :
    (enabledSignal a).1 = if a.enabled.getD true then 10 else 0 := by
  unfold enabledSignal
  split
  · rfl
  · rfl

theorem enabledSignal_snd (a : Agent) :
    (enabledSignal a).2
      = [if a.enabled.getD true then "agent is enabled" else "agent is disabled"] := by
  unfold enabledSignal
  split
  · rfl
  · rfl

theorem claimFieldReasons_length (f qn re rp rc : String) :
    (claimFieldReasons f qn re rp rc).length ≤ 1 := by
  unfold claimFieldReasons
  split
  · exact Nat.le_refl 1
  · split
    · exact Nat.le_refl 1
    · split
      · exact Nat.le_refl 1
      · exact Nat.zero_le 1

theorem claimRoleReasons_length (roles : List String) (qn : String) :
    (claimRoleReasons roles qn).length ≤ 1 := by
  unfold claimRoleReasons
  split
  · exact Nat.le_refl 1
  · split
    · exact Nat.le_refl 1
    · split
      · exact Nat.le_refl 1
      · exact Nat.zero_le 1

theorem claimTestReasons_length (tf qn re rp rc : String) :
    (claimTestReasons tf qn re rp rc).length ≤ 1 := by
  unfold claimTestReasons
  split
  · exact claimFieldReasons_length tf qn re rp rc
  · exact Nat.zero_le 1

/-! ### The claims -/

/-- C1: for every candidate record and every non-empty case-folded query, the
score is the sum of the single highest-matching tier per scalar field
(name 120/85/70, agent_id 115/80/65, appid 95/70/55, and test 85/55/40 only
when the folded test field is non-empty), exactly one role contribution
(flat 80 on an exact role, else min(count x 25, 60) over prefix-matching
roles, else min(count x 20, 50) over substring-matching roles), and 10 when
the record is enabled, 0 when disabled; within each scalar field only the
single highest tier applies. -/
theorem c1_score_weight_table (a : Agent) (q : String) (h : safe_lower (some q) ≠ "") :
    (score_agent_match a q).score =
      claimFieldTier (foldedName a) (safe_lower (some q)) 120 85 70
        + claimFieldTier (foldedAgentId a) (safe_lower (some q)) 115 80 65
        + claimFieldTier (foldedAppid a) (safe_lower (some q)) 95 70 55
        + (if foldedTest a ≠ "" then claimFieldTier (foldedTest a) (safe_lower (some q)) 85 55 40
           else 0)
        + claimRoleContribution (foldedRoles a) (safe_lower (some q))
        + (if a.enabled.getD true then 10 else 0) := by
  rw [score_agent_match_eq a q h]
  simp only [nameSignal_fst, agentIdSignal_fst, appidSignal_fst, testSignal_fst, roleSignal_fst,
    enabledSignal_fst]
  omega

/-- Witness for C1 at the Billing Bot record and the query "billing". -/
theorem c1_score_weight_table_witness :
    (score_agent_match billingAgent "billing").score =
      claimFieldTier (foldedName billingAgent) (safe_lower (some "billing")) 120 85 70
        + claimFieldTier (foldedAgentId billingAgent) (safe_lower (some "billing")) 115 80 65
        + claimFieldTier (foldedAppid billingAgent) (safe_lower (some "billing")) 95 70 55
        + (if foldedTest billingAgent ≠ "" then
            claimFieldTier (foldedTest billingAgent) (safe_lower (some "billing")) 85 55 40
           else 0)
        + claimRoleContribution (foldedRoles billingAgent) (safe_lower (some "billing"))
        + (if billingAgent.enabled.getD true then 10 else 0) :=
  c1_score_weight_table billingAgent "billing" (by decide)

/-- C8 (amended): for every record and non-empty query the reasons sequence
is the concatenation, in evaluation order name, agent_id, appid, then the
role rule, then test, then the enabled signal, of per-signal reason blocks;
each scalar, role and test block holds at most one reason (exactly one when
its signal fires), the enabled block is exactly one reason, "agent is
enabled" on an enabled record and "agent is disabled" (with zero score
contribution) on a disabled one, so the reasons list is never empty. -/
theorem c8_reasons_order (a : Agent) (q : String) (h : safe_lower (some q) ≠ "") :
    (score_agent_match a q).reasons =
        claimFieldReasons (foldedName a) (safe_lower (some q))
            ("exact name match ('" ++ pyFmt a.name ++ "')")
            "name prefix match" "name contains search term"
          ++ claimFieldReasons (foldedAgentId a) (safe_lower (some q))
            ("exact agent_id match ('" ++ pyFmt a.agent_id ++ "')")
            "agent_id prefix match" "agent_id contains search term"
          ++ claimFieldReasons (foldedAppid a) (safe_lower (some q))
            ("exact appid match ('" ++ pyFmt a.appid ++ "')")
            "appid prefix match" "appid contains search term"
          ++ claimRoleReasons (foldedRoles a) (safe_lower (some q))
          ++ claimTestReasons (foldedTest a) (safe_lower (some q))
            ("exact test match ('" ++ pyFmt a.test ++ "')")
            "test prefix match" "test contains search term"
          ++ [if a.enabled.getD true then "agent is enabled" else "agent is disabled"]
      ∧ (∀ f qn re rp rc, (claimFieldReasons f qn re rp rc).length ≤ 1)
      ∧ (∀ roles qn, (claimRoleReasons roles qn).length ≤ 1)
      ∧ (∀ tf qn re rp rc, (claimTestReasons tf qn re rp rc).length ≤ 1)
      ∧ (score_agent_match a q).reasons ≠ [] := by
  have hmain : (score_agent_match a q).reasons =
      claimFieldReasons (foldedName a) (safe_lower (some q))
          ("exact name match ('" ++ pyFmt a.name ++ "')")
          "name prefix match" "name contains search term"
        ++ claimFieldReasons (foldedAgentId a) (safe_lower (some q))
          ("exact agent_id match ('" ++ pyFmt a.agent_id ++ "')")
          "agent_id prefix match" "agent_id contains search term"
        ++ claimFieldReasons (foldedAppid a) (safe_lower (some q))
          ("exact appid match ('" ++ pyFmt a.appid ++ "')")
          "appid prefix match" "appid contains search term"
        ++ claimRoleReasons (foldedRoles a) (safe_lower (some q))
        ++ claimTestReasons (foldedTest a) (safe_lower (some q))
          ("exact test match ('" ++ pyFmt a.test ++ "')")
          "test prefix match" "test contains search term"
        ++ [if a.enabled.getD true then "agent is enabled" else "agent is disabled"] := by
    rw [score_agent_match_eq a q h]
    simp only [nameSignal_snd, agentIdSignal_snd, appidSignal_snd, testSignal_snd,
      roleSignal_snd, enabledSignal_snd]
  refine ⟨hmain, fun f qn re rp rc => claimFieldReasons_length f qn re rp rc,
    fun roles qn => claimRoleReasons_length roles qn,
    fun tf qn re rp rc => claimTestReasons_length tf qn re rp rc, ?_⟩
  rw [hmain]
  intro hnil
  have := List.append_eq_nil.mp hnil
  exact List.cons_ne_nil _ _ this.2

/-- Witness for C8 at a record firing the role, test and enabled signals. -/
theorem c8_reasons_order_witness :
    (score_agent_match testRoleAgent "ops").reasons =
        claimFieldReasons (foldedName testRoleAgent) (safe_lower (some "ops"))
            ("exact name match ('" ++ pyFmt testRoleAgent.name ++ "')")
            "name prefix match" "name contains search term"
          ++ claimFieldReasons (foldedAgentId testRoleAgent) (safe_lower (some "ops"))
            ("exact agent_id match ('" ++ pyFmt testRoleAgent.agent_id ++ "')")
            "agent_id prefix match" "agent_id contains search term"
          ++ claimFieldReasons (foldedAppid testRoleAgent) (safe_lower (some "ops"))
            ("exact appid match ('" ++ pyFmt testRoleAgent.appid ++ "')")
            "appid prefix match" "appid contains search term"
          ++ claimRoleReasons (foldedRoles testRoleAgent) (safe_lower (some "ops"))
          ++ claimTestReasons (foldedTest testRoleAgent) (safe_lower (some "ops"))
            ("exact test match ('" ++ pyFmt testRoleAgent.test ++ "')")
            "test prefix match" "test contains search term"
          ++ [if testRoleAgent.enabled.getD true then "agent is enabled"
              else "agent is disabled"]
      ∧ (∀ f qn re rp rc, (claimFieldReasons f qn re rp rc).length ≤ 1)
      ∧ (∀ roles qn, (claimRoleReasons roles qn).length ≤ 1)
      ∧ (∀ tf qn re rp rc, (claimTestReasons tf qn re rp rc).length ≤ 1)
      ∧ (score_agent_match testRoleAgent "ops").reasons ≠ [] :=
  c8_reasons_order testRoleAgent "ops" (by decide)

/-- Counterexample to C8 as stated: on a record whose test field and role both
match, the scorer appends the role reason before the test reason, so the
reasons are not in the claimed order name, agent_id, appid, test, role,
enabled. -/
theorem c8_counterexample :
    (score_agent_match testRoleAgent "ops").reasons
        = ["exact role match: ops", "exact test match ('ops')", "agent is enabled"]
      ∧ (score_agent_match testRoleAgent "ops").reasons
        ≠ claimedReasonsTestBeforeRole testRoleAgent "ops"
      ∧ claimedReasonsTestBeforeRole testRoleAgent "ops"
        = ["exact test match ('ops')", "exact role match: ops", "agent is enabled"] := by
  refine ⟨by decide, ?_, by decide⟩
  decide

/-- C5 counterexample: on the Scenario A record the query "billing" already
hits the prefix stage (the folded name "billing bot" starts with "billing"),
so the stage used is not "contains" and the score is not 80. -/
theorem c5_counterexample :
    (query_candidates_staged [billingAgent] (some "billing") 20).diagnostics.stage_used
        ≠ "contains"
      ∧ (score_agent_match billingAgent "billing").score ≠ 80 := by
  refine ⟨?_, ?_⟩
  · decide
  · decide

/-- C5 (amended): on the Scenario A record the query "billing" misses the
exact stage, hits the prefix stage (so stage_used is "prefix" and the contains
query is never issued), and the record scores 95 = name-prefix 85 + enabled
10 with reasons "name prefix match" and "agent is enabled". -/
theorem c5_amended_scenario :
    query_stage [billingAgent] (matchesExactStage (safe_lower (some "billing"))) 20 = []
      ∧ query_stage [billingAgent] (matchesPrefixStage (safe_lower (some "billing"))) 20
        = [billingAgent]
      ∧ query_candidates_staged [billingAgent] (some "billing") 20 =
          { candidates := [billingAgent]
            diagnostics := { strategy := "staged", stage_used := "prefix" }
            storeQueries := 2 }
      ∧ nameSignal billingAgent (foldedName billingAgent) (safe_lower (some "billing"))
        = (85, ["name prefix match"])
      ∧ enabledSignal billingAgent = (10, ["agent is enabled"])
      ∧ score_agent_match billingAgent "billing"
        = { score := 95, reasons := ["name prefix match", "agent is enabled"] } := by
  refine ⟨by decide, by decide, by decide, by decide, by decide, by decide⟩

/-- C2: for every non-empty query the staged retriever runs exact, prefix and
contains in that strict order and returns the first stage with at least one
record, tagged "exact", "prefix" or "contains"; a non-empty stage stops the
escalation (a non-empty exact stage issues exactly one store query, so the
prefix and contains queries are never issued), every stage is capped at
`top_k`, and when the contains stage also yields nothing the candidate set is
empty. -/
theorem c2_staged_escalation (store : List Agent) (s : String) (k : Nat)
    (h : stripStr s ≠ "") :
    (query_candidates_staged store (some s) k =
        (if query_stage store (matchesExactStage (safe_lower (some s))) k ≠ [] then
          { candidates := query_stage store (matchesExactStage (safe_lower (some s))) k
            diagnostics := { strategy := "staged", stage_used := "exact" }
            storeQueries := 1 }
        else if query_stage store (matchesPrefixStage (safe_lower (some s))) k ≠ [] then
          { candidates := query_stage store (matchesPrefixStage (safe_lower (some s))) k
            diagnostics := { strategy := "staged", stage_used := "prefix" }
            storeQueries := 2 }
        else
          { candidates := query_stage store (matchesContainsStage (safe_lower (some s))) k
            diagnostics := { strategy := "staged", stage_used := "contains" }
            storeQueries := 3 }))
      ∧ (∀ pred : Agent → Bool, (query_stage store pred k).length ≤ k)
      ∧ (query_stage store (matchesExactStage (safe_lower (some s))) k ≠ [] →
          (query_candidates_staged store (some s) k).storeQueries = 1)
      ∧ (query_stage store (matchesExactStage (safe_lower (some s))) k = [] →
          query_stage store (matchesPrefixStage (safe_lower (some s))) k ≠ [] →
          (query_candidates_staged store (some s) k).storeQueries = 2)
      ∧ (query_stage store (matchesExactStage (safe_lower (some s))) k = [] →
          query_stage store (matchesPrefixStage (safe_lower (some s))) k = [] →
          query_stage store (matchesContainsStage (safe_lower (some s))) k = [] →
          (query_candidates_staged store (some s) k).candidates = []) := by
  have hs : s ≠ "" := by
    intro he
    apply h
    rw [he]
    rfl
  have hmain : query_candidates_staged store (some s) k =
      (if query_stage store (matchesExactStage (safe_lower (some s))) k ≠ [] then
        { candidates := query_stage store (matchesExactStage (safe_lower (some s))) k
          diagnostics := { strategy := "staged", stage_used := "exact" }
          storeQueries := 1 }
      else if query_stage store (matchesPrefixStage (safe_lower (some s))) k ≠ [] then
        { candidates := query_stage store (matchesPrefixStage (safe_lower (some s))) k
          diagnostics := { strategy := "staged", stage_used := "prefix" }
          storeQueries := 2 }
      else
        { candidates := query_stage store (matchesContainsStage (safe_lower (some s))) k
          diagnostics := { strategy := "staged", stage_used := "contains" }
          storeQueries := 3 }) := by
    unfold query_candidates_staged
    split
    · rename_i hc
      exfalso
      simp only [safe_str, Option.getD, Bool.or_eq_true, decide_eq_true_eq] at hc
      rcases hc with hc | hc
      · exact hs hc
      · exact h hc
    · rfl
  refine ⟨hmain, fun pred => List.length_take_le k _, ?_, ?_, ?_⟩
  · intro he
    rw [hmain, if_pos he]
  · intro he hp
    rw [hmain, if_neg (fun hc => hc he), if_pos hp]
  · intro he hp hc
    rw [hmain, if_neg (fun hx => hx he), if_neg (fun hx => hx hp)]
    exact hc

/-- Witness for C2: one-record store, query "billing", top_k 20. -/
theorem c2_staged_escalation_witness :
    stripStr "billing" ≠ ""
      ∧ ((query_candidates_staged [billingAgent] (some "billing") 20 =
          (if query_stage [billingAgent] (matchesExactStage (safe_lower (some "billing"))) 20
              ≠ [] then
            { candidates :=
                query_stage [billingAgent] (matchesExactStage (safe_lower (some "billing"))) 20
              diagnostics := { strategy := "staged", stage_used := "exact" }
              storeQueries := 1 }
          else if query_stage [billingAgent]
              (matchesPrefixStage (safe_lower (some "billing"))) 20 ≠ [] then
            { candidates :=
                query_stage [billingAgent] (matchesPrefixStage (safe_lower (some "billing"))) 20
              diagnostics := { strategy := "staged", stage_used := "prefix" }
              storeQueries := 2 }
          else
            { candidates :=
                query_stage [billingAgent] (matchesContainsStage (safe_lower (some "billing"))) 20
              diagnostics := { strategy := "staged", stage_used := "contains" }
              storeQueries := 3 }))
        ∧ (∀ pred : Agent → Bool, (query_stage [billingAgent] pred 20).length ≤ 20)
        ∧ (query_stage [billingAgent] (matchesExactStage (safe_lower (some "billing"))) 20 ≠ [] →
            (query_candidates_staged [billingAgent] (some "billing") 20).storeQueries = 1)
        ∧ (query_stage [billingAgent] (matchesExactStage (safe_lower (some "billing"))) 20 = [] →
            query_stage [billingAgent] (matchesPrefixStage (safe_lower (some "billing"))) 20 ≠ [] →
            (query_candidates_staged [billingAgent] (some "billing") 20).storeQueries = 2)
        ∧ (query_stage [billingAgent] (matchesExactStage (safe_lower (some "billing"))) 20 = [] →
            query_stage [billingAgent] (matchesPrefixStage (safe_lower (some "billing"))) 20 = [] →
            query_stage [billingAgent] (matchesContainsStage (safe_lower (some "billing"))) 20
              = [] →
            (query_candidates_staged [billingAgent] (some "billing") 20).candidates = [])) :=
  ⟨by decide, c2_staged_escalation [billingAgent] "billing" 20 (by decide)⟩

/-- C7: a discovery request with an empty or whitespace-only query takes the
list path: the response is independent of the scoring function (the scorer is
never invoked), its strategy is "list", its agents are the first `top_k`
records of the unfiltered scan; and the scorer itself on any record and any
query that folds to the empty string returns score 0 and no reasons. -/
theorem c7_blank_query_list_path (f g : Agent → String → MatchScore) (store : List Agent)
    (qp tp : Option String) (d : Nat) (h : stripStr (safe_str qp) = "") :
    registry_discover f store qp tp d = registry_discover g store qp tp d
      ∧ (registry_discover f store qp tp d).diagnostics
        = { strategy := "list", stage_used := "all" }
      ∧ (registry_discover f store qp tp d).agents = store.take (resolve_top_k tp d)
      ∧ (registry_discover f store qp tp d).count = (store.take (resolve_top_k tp d)).length
      ∧ (∀ (a : Agent) (q2 : String), safe_lower (some q2) = "" →
          score_agent_match a q2 = { score := 0, reasons := [] }) := by
  have hlist : ∀ k : Nat, query_candidates_staged store none k =
      { candidates := store.take k
        diagnostics := { strategy := "list", stage_used := "all" }
        storeQueries := 1 } := by
    intro k
    unfold query_candidates_staged
    rw [if_pos]
    simp [safe_str]
  have hresp : ∀ fn : Agent → String → MatchScore,
      registry_discover fn store qp tp d =
        { count := (store.take (resolve_top_k tp d)).length
          q := none
          message := some "No query provided. Returned registry list."
          diagnostics := { strategy := "list", stage_used := "all" }
          agents := store.take (resolve_top_k tp d)
          best_match := none
          best_match_score := 0
          best_match_reasons := []
          justification := none } := by
    intro fn
    unfold registry_discover
    rw [h]
    rw [if_pos rfl, if_pos rfl, hlist]
  refine ⟨by rw [hresp f, hresp g], by rw [hresp f], by rw [hresp f], by rw [hresp f], ?_⟩
  intro a q2 hq
  unfold score_agent_match
  rw [if_pos hq]

/-- Witness for C7: whitespace-only query parameter over a one-record store. -/
theorem c7_blank_query_list_path_witness :
    stripStr (safe_str (some "   ")) = ""
      ∧ (registry_discover score_agent_match [billingAgent] (some "   ") none 20 =
          registry_discover (fun _ _ => { score := 7, reasons := ["x"] })
            [billingAgent] (some "   ") none 20
        ∧ (registry_discover score_agent_match [billingAgent] (some "   ") none 20).diagnostics
          = { strategy := "list", stage_used := "all" }
        ∧ (registry_discover score_agent_match [billingAgent] (some "   ") none 20).agents
          = [billingAgent].take (resolve_top_k none 20)
        ∧ (registry_discover score_agent_match [billingAgent] (some "   ") none 20).count
          = ([billingAgent].take (resolve_top_k none 20)).length
        ∧ (∀ (a : Agent) (q2 : String), safe_lower (some q2) = "" →
            score_agent_match a q2 = { score := 0, reasons := [] })) :=
  ⟨by decide,
    c7_blank_query_list_path score_agent_match (fun _ _ => { score := 7, reasons := ["x"] })
      [billingAgent] (some "   ") none 20 (by decide)⟩

/-- C9 counterexample: with the configured default `DISCOVERY_TOP_K` at 500
and no usable `top` parameter, the effective top_k is 500, above the claimed
hard cap of 100 (the default is used unclamped). -/
theorem c9_counterexample :
    resolve_top_k none 500 = 500 ∧ ¬ resolve_top_k none 500 ≤ 100 := by
  refine ⟨rfl, by decide⟩

/-- C9 (amended): a supplied `top` parameter that is a non-empty digit string
is clamped to `max 1 (min (int value) 100)`, hence always between 1 and 100
(values above 100 become 100, the value 0 becomes 1); any other supplied
value, and an absent parameter, leave the configured default unclamped. -/
theorem c9_top_k_clamp (s : String) (d : Nat) :
    (pyIsDigit s = true →
        1 ≤ resolve_top_k (some s) d ∧ resolve_top_k (some s) d ≤ 100
          ∧ resolve_top_k (some s) d = max 1 (min (strToNat s) 100))
      ∧ (pyIsDigit s = false → resolve_top_k (some s) d = d)
      ∧ resolve_top_k none d = d := by
  have hred : resolve_top_k (some s) d =
      if s ≠ "" && pyIsDigit s then max 1 (min (strToNat s) 100) else d := rfl
  refine ⟨?_, ?_, rfl⟩
  · intro hd
    have hs : s ≠ "" := by
      intro he
      rw [he] at hd
      exact absurd hd (by decide)
    have hcond : (s ≠ "" && pyIsDigit s) = true := by
      simp [hs, hd]
    rw [hred, if_pos hcond]
    refine ⟨Nat.le_max_left 1 _, ?_, rfl⟩
    omega
  · intro hd
    have hcond : (s ≠ "" && pyIsDigit s) = false := by
      simp [hd]
    rw [hred, if_neg]
    rw [hcond]
    simp

/-- C4 counterexample: registering the same payload for agent "a1" first at
time T1 and again at time T2 stores a document whose createdAt is T2, not the
original T1 — `_agent_upsert` builds the document from the payload alone and
`setdefault` only preserves a createdAt the client resends. -/
theorem c4_counterexample :
    ((registry_register [] c4payload "T1").bind (fun r1 =>
        (agent_get r1.1 "a1").map Agent.createdAt)) = some (some "T1")
      ∧ ((registry_register [] c4payload "T1").bind (fun r1 =>
          (registry_register r1.1 c4payload "T2").bind (fun r2 =>
            (agent_get r2.1 "a1").map Agent.createdAt))) = some (some "T2")
      ∧ ("T2" : String) ≠ "T1" := by
  refine ⟨by decide, by decide, by decide⟩

/-- C4 (amended): an upsert stores createdAt equal to the payload's createdAt
when the payload carries one and equal to the new write time otherwise (so the
original record's createdAt survives a re-registration only if the client
resends it), while updatedAt is always the time of the new write. -/
theorem c4_upsert_timestamps (payload : Payload) (now : String) (doc : Agent)
    (h : agent_upsert payload now = some doc) :
    doc.createdAt = some (payload.createdAt.getD now) ∧ doc.updatedAt = some now := by
  by_cases hc : (pyTruthy (pyOrStr payload.agent_id payload.appid) && pyTruthy payload.name)
      = true
  · simp only [agent_upsert] at h
    rw [if_pos hc] at h
    injection h with h2
    rw [← h2]
    exact ⟨rfl, rfl⟩
  · simp only [agent_upsert] at h
    rw [if_neg hc] at h
    exact absurd h (by simp)

/-- Witness for C4 (amended) at the concrete payload and write time T1. -/
theorem c4_upsert_timestamps_witness :
    agent_upsert c4payload "T1" = some c4doc
      ∧ (c4doc.createdAt = some (c4payload.createdAt.getD "T1")
        ∧ c4doc.updatedAt = some "T1") :=
  ⟨by decide, c4_upsert_timestamps c4payload "T1" c4doc (by decide)⟩

/-- C6: both write paths (registration upsert and partial patch) end by
recomputing the search fields, so every stored document's five shadow fields
are the folded transforms of its source fields — empty string or empty list
(never null) when the source is absent. -/
theorem c6_shadow_invariant :
    (∀ (payload : Payload) (now : String) (doc : Agent),
        agent_upsert payload now = some doc → shadow_consistent doc)
      ∧ (∀ (existing : Agent) (patch : PatchPayload) (aid now : String),
          shadow_consistent (patch_agent existing patch aid now)) := by
  have happly : ∀ d : Agent, shadow_consistent (apply_search_fields d) := by
    intro d
    exact ⟨rfl, rfl, rfl, rfl, rfl⟩
  constructor
  · intro payload now doc h
    by_cases hc : (pyTruthy (pyOrStr payload.agent_id payload.appid) && pyTruthy payload.name)
        = true
    · simp only [agent_upsert] at h
      rw [if_pos hc] at h
      injection h with h2
      rw [← h2]
      exact happly _
    · simp only [agent_upsert] at h
      rw [if_neg hc] at h
      exact absurd h (by simp)
  · intro existing patch aid now
    unfold patch_agent
    exact happly _

/-! ### Stable-sort machinery for the ranker claim -/

theorem pairwise_filter_all (p : α → Bool) (le : α → α → Bool) (l : List α)
    (hconst : ∀ a b, p a = true → p b = true → le a b = true) :
    (l.filter p).Pairwise (fun a b => le a b = true) := by
  apply List.pairwise_of_forall_mem_list
  intro a ha b hb
  exact hconst a b (List.of_mem_filter ha) (List.of_mem_filter hb)

/-- A stable sort leaves the subsequence of elements picked out by a predicate
on which the order is constant untouched. -/
theorem mergeSort_filter_const (le : α → α → Bool) (p : α → Bool) (l : List α)
    (htrans : ∀ a b c, le a b = true → le b c = true → le a c = true)
    (htotal : ∀ a b, (le a b || le b a) = true)
    (hconst : ∀ a b, p a = true → p b = true → le a b = true) :
    (l.mergeSort le).filter p = l.filter p := by
  have hpair := pairwise_filter_all p le l hconst
  have hsub : List.Sublist (l.filter p) (l.mergeSort le) :=
    List.sublist_mergeSort htrans htotal hpair (List.filter_sublist l)
  have hsub2 : List.Sublist ((l.filter p).filter p) ((l.mergeSort le).filter p) :=
    hsub.filter p
  have hff : (l.filter p).filter p = l.filter p := by
    rw [List.filter_filter]
    apply List.filter_congr
    intro a _
    exact Bool.and_self (p a)
  rw [hff] at hsub2
  have hperm : ((l.mergeSort le).filter p).Perm (l.filter p) :=
    (List.mergeSort_perm l le).filter p
  exact (hsub2.eq_of_length hperm.length_eq.symm).symm

theorem rankLE_trans (a b c : Ranked) (h1 : decide (b.score ≤ a.score) = true)
    (h2 : decide (c.score ≤ b.score) = true) : decide (c.score ≤ a.score) = true := by
  simp only [decide_eq_true_eq] at h1 h2 ⊢
  omega

theorem rankLE_total (a b : Ranked) :
    (decide (b.score ≤ a.score) || decide (a.score ≤ b.score)) = true := by
  simp only [Bool.or_eq_true, decide_eq_true_eq]
  exact Nat.le_total b.score a.score

/-- C3: the ranker scores every candidate and orders by descending score; for
equal scores the candidate earlier in the input appears earlier in the output
(the whole equal-score subsequence is the input subsequence, i.e. a stable
tie-break), the output is a permutation of the scored input, and up to that
tie-break the output is input-order independent: permuted inputs produce the
same descending score sequence. -/
theorem c3_ranker_stable_descending (f : Agent → String → MatchScore)
    (cs cs' : List Agent) (q : String) (hperm : cs'.Perm cs) :
    List.Pairwise (fun x y : Ranked => y.score ≤ x.score) (rank_candidates f cs q)
      ∧ (rank_candidates f cs q).Perm
        (cs.map (fun c =>
          { agent := c, score := (f c q).score, reasons := (f c q).reasons : Ranked }))
      ∧ (∀ s : Nat, (rank_candidates f cs q).filter (fun x => x.score = s)
          = (cs.map (fun c =>
              { agent := c, score := (f c q).score, reasons := (f c q).reasons : Ranked })).filter
            (fun x => x.score = s))
      ∧ (rank_candidates f cs' q).map Ranked.score
        = (rank_candidates f cs q).map Ranked.score := by
  have hred : ∀ l : List Agent, rank_candidates f l q =
      (l.map (fun c =>
        { agent := c, score := (f c q).score, reasons := (f c q).reasons : Ranked })).mergeSort
          (fun x y => decide (y.score ≤ x.score)) := fun l => rfl
  refine ⟨?_, ?_, ?_, ?_⟩
  · rw [hred]
    have hp := @List.sorted_mergeSort Ranked (fun x y : Ranked => decide (y.score ≤ x.score))
      rankLE_trans rankLE_total
      (cs.map (fun c =>
        { agent := c, score := (f c q).score, reasons := (f c q).reasons : Ranked }))
    exact hp.imp (fun h => of_decide_eq_true h)
  · rw [hred]
    exact List.mergeSort_perm _ _
  · intro s
    rw [hred]
    exact mergeSort_filter_const _ _ _ rankLE_trans rankLE_total
      (fun a b ha hb => by
        simp only [decide_eq_true_eq] at ha hb ⊢
        omega)
  · have hscored : (cs'.map (fun c =>
        { agent := c, score := (f c q).score, reasons := (f c q).reasons : Ranked })).Perm
        (cs.map (fun c =>
          { agent := c, score := (f c q).score, reasons := (f c q).reasons : Ranked })) :=
      hperm.map _
    have hpr : (rank_candidates f cs' q).Perm (rank_candidates f cs q) := by
      rw [hred, hred]
      exact ((List.mergeSort_perm _ _).trans hscored).trans (List.mergeSort_perm _ _).symm
    have hmap : ((rank_candidates f cs' q).map Ranked.score).Perm
        ((rank_candidates f cs q).map Ranked.score) := hpr.map Ranked.score
    have hs1 : List.Pairwise (fun x y : Nat => y ≤ x)
        ((rank_candidates f cs' q).map Ranked.score) := by
      rw [hred]
      apply List.pairwise_map.mpr
      have hp := @List.sorted_mergeSort Ranked (fun x y : Ranked => decide (y.score ≤ x.score))
        rankLE_trans rankLE_total
        (cs'.map (fun c =>
          { agent := c, score := (f c q).score, reasons := (f c q).reasons : Ranked }))
      exact hp.imp (fun h => of_decide_eq_true h)
    have hs2 : List.Pairwise (fun x y : Nat => y ≤ x)
        ((rank_candidates f cs q).map Ranked.score) := by
      rw [hred]
      apply List.pairwise_map.mpr
      have hp := @List.sorted_mergeSort Ranked (fun x y : Ranked => decide (y.score ≤ x.score))
        rankLE_trans rankLE_total
        (cs.map (fun c =>
          { agent := c, score := (f c q).score, reasons := (f c q).reasons : Ranked }))
      exact hp.imp (fun h => of_decide_eq_true h)
    exact @List.eq_of_perm_of_sorted Nat (fun x y => y ≤ x)
      ⟨fun x y h1 h2 => Nat.le_antisymm h2 h1⟩ _ _ hmap hs1 hs2

/-- Witness for C3: the two "Ops" records (spec 8, scenario B) in both input
orders under the real scorer. -/
theorem c3_ranker_stable_descending_witness :
    List.Pairwise (fun x y : Ranked => y.score ≤ x.score)
        (rank_candidates score_agent_match [opsEnabledAgent, opsDisabledAgent] "ops")
      ∧ (rank_candidates score_agent_match [opsEnabledAgent, opsDisabledAgent] "ops").Perm
        ([opsEnabledAgent, opsDisabledAgent].map (fun c =>
          { agent := c, score := (score_agent_match c "ops").score,
            reasons := (score_agent_match c "ops").reasons : Ranked }))
      ∧ (∀ s : Nat,
          (rank_candidates score_agent_match [opsEnabledAgent, opsDisabledAgent] "ops").filter
              (fun x => x.score = s)
            = ([opsEnabledAgent, opsDisabledAgent].map (fun c =>
                { agent := c, score := (score_agent_match c "ops").score,
                  reasons := (score_agent_match c "ops").reasons : Ranked })).filter
              (fun x => x.score = s))
      ∧ (rank_candidates score_agent_match [opsDisabledAgent, opsEnabledAgent] "ops").map
          Ranked.score
        = (rank_candidates score_agent_match [opsEnabledAgent, opsDisabledAgent] "ops").map
          Ranked.score :=
  c3_ranker_stable_descending score_agent_match [opsEnabledAgent, opsDisabledAgent]
    [opsDisabledAgent, opsEnabledAgent] "ops" (List.Perm.swap _ _ _)

/-- C10: on a record whose shadow fields satisfy the consistency invariant,
the scorer returns the same score and reasons whether the shadow fields are
present or all removed — when a shadow is absent (or empty) the scorer folds
the raw field (and the raw roles) at query time. -/
theorem c10_scorer_shadow_insensitive (a : Agent) (q : String) (h : shadow_consistent a) :
    score_agent_match a q = score_agent_match (stripShadows a) q := by
  obtain ⟨hn, hg, hp2, ht, hr⟩ := h
  have e1 : foldedName a = foldedName (stripShadows a) := by
    show safe_lower (pyOrStr a.name_lc a.name) = safe_lower a.name
    rw [hn]
    exact safe_lower_pyOrStr_shadow a.name
  have e2 : foldedAgentId a = foldedAgentId (stripShadows a) := by
    show safe_lower (pyOrStr a.agent_id_lc a.agent_id) = safe_lower a.agent_id
    rw [hg]
    exact safe_lower_pyOrStr_shadow a.agent_id
  have e3 : foldedAppid a = foldedAppid (stripShadows a) := by
    show safe_lower (pyOrStr a.appid_lc a.appid) = safe_lower a.appid
    rw [hp2]
    exact safe_lower_pyOrStr_shadow a.appid
  have e4 : foldedTest a = foldedTest (stripShadows a) := by
    show safe_lower (pyOrStr a.test_lc a.test) = safe_lower a.test
    rw [ht]
    exact safe_lower_pyOrStr_shadow a.test
  have e5 : foldedRoles a = foldedRoles (stripShadows a) := by
    show foldedRoles a
      = (a.roles.map (fun r => safe_lower (some r))).filter (fun r => r ≠ "")
    unfold foldedRoles
    rw [hr]
    exact roles_refold a.roles
  unfold score_agent_match
  rw [e1, e2, e3, e4, e5]
  rfl

/-- Witness for C10 at the Billing Bot record (its shadows are derived, hence
consistent) and the query "billing". -/
theorem c10_scorer_shadow_insensitive_witness :
    score_agent_match billingAgent "billing"
      = score_agent_match (stripShadows billingAgent) "billing" :=
  c10_scorer_shadow_insensitive billingAgent "billing" ⟨rfl, rfl, rfl, rfl, rfl⟩

end AgentRegistry
